import Mathlib

/-!
Verification of the DataGenesis backend core (shallow embedding).

The definitions below are translated from the Python sources
`backend/app/services/gemini_service.py`,
`backend/app/services/agent_orchestrator.py` and
`backend/app/services/websocket_manager.py`.

Conventions of the embedding:
* `json.loads` is modelled by `json_loads`, a fuel-based recursive-descent
  parser over the JSON grammar accepted by Python's strict `json` module
  (standard literals, integers and decimal floats, strings with escapes,
  arrays, objects).  Numbers are kept symbolically as
  mantissa / fractional-digits / decimal-exponent so no floating point
  arithmetic is needed.  The nonstandard `NaN`/`Infinity` literals that
  CPython additionally accepts are not modelled; no claim depends on them.
* Python functions that swallow exceptions and return a default are
  modelled as total functions returning that default on the error branch;
  fallible collaborators (the Gemini network call) are abstracted as
  `Except String _` oracles.
* Log statements, timestamps and human-readable progress messages carry no
  information used by any claim and are omitted from the embedding.
-/

/-- A JSON value as produced by Python's `json.loads`.  Integers and floats
are distinguished as in Python; a float is stored as integer mantissa, the
list of fractional digits, and a decimal exponent, so no floating point
arithmetic is needed. -/
inductive Json where
  | null
  | bool (b : Bool)
  | num (n : Int)
  | flt (m : Int) (frac : List Nat) (e10 : Int)
  | str (s : String)
  | arr (elems : List Json)
  | obj (fields : List (String × Json))

/-- Python truthiness of a JSON value (`if value:`). -/
def jsonTruthy : Json → Bool
  | .null => false
  | .bool b => b
  | .num n => !(n == 0)
  | .flt m frac _ => !(m == 0 && frac.all (· == 0))
  | .str s => !(s == "")
  | .arr xs => !xs.isEmpty
  | .obj fs => !fs.isEmpty

/-- Whether a JSON value is an array. -/
def Json.isArr : Json → Bool
  | .arr _ => true
  | _ => false

/-! ### Python-style string primitives (character-exact) -/

/-- The whitespace set of Python's `str.strip()` restricted to ASCII. -/
def pyWsChar (c : Char) : Bool :=
  c == ' ' || c == '\t' || c == '\n' || c == '\r' || c == '\x0b' || c == '\x0c'

/-- `str.strip()`. -/
def pyStrip (s : String) : String :=
  String.mk (((s.toList.dropWhile pyWsChar).reverse.dropWhile pyWsChar).reverse)

/-- List-level prefix test. -/
def listStartsWith : List Char → List Char → Bool
  | [], _ => true
  | _ :: _, [] => false
  | p :: ps, c :: cs => p == c && listStartsWith ps cs

/-- `str.startswith`. -/
def pyStartsWith (s pre : String) : Bool := listStartsWith pre.toList s.toList

/-- `str.endswith`. -/
def pyEndsWith (s suf : String) : Bool :=
  listStartsWith suf.toList.reverse s.toList.reverse

/-- `text[n:]` (character indexing, as in Python). -/
def pyDrop (s : String) (n : Nat) : String := String.mk (s.toList.drop n)

/-- `text[:-n]`. -/
def pyDropRight (s : String) (n : Nat) : String :=
  String.mk (s.toList.take (s.toList.length - n))

/-- `text[:n]` on a string. -/
def pyTake (s : String) (n : Nat) : String := String.mk (s.toList.take n)

/-- Substring containment helper: does `pat` occur in `cs`? -/
def hasSubList (pat : List Char) : List Char → Bool
  | [] => listStartsWith pat []
  | c :: cs => listStartsWith pat (c :: cs) || hasSubList pat cs

/-- Python's `pat in s` on strings. -/
def containsSub (s pat : String) : Bool := hasSubList pat.toList s.toList

/-- Python's `str.lower()` (ASCII range, which covers every use here). -/
def lowerS (s : String) : String := String.mk (s.toList.map Char.toLower)

/-- `text.split(chr)` for a single-character separator (empty pieces kept). -/
def splitCharL (sep : Char) : List Char → List (List Char)
  | [] => [[]]
  | c :: cs =>
    let r := splitCharL sep cs
    if c == sep then [] :: r
    else
      match r with
      | [] => [[c]]
      | h :: t => (c :: h) :: t

/-- `sep.join(pieces)` for a single-character separator. -/
def joinCharL (sep : Char) : List (List Char) → List Char
  | [] => []
  | [p] => p
  | p :: ps => p ++ sep :: joinCharL sep ps

/-! ### `json.loads` -/

/-- JSON grammar whitespace (space, tab, newline, carriage return). -/
def jsonWs (c : Char) : Bool := c == ' ' || c == '\t' || c == '\n' || c == '\r'

/-- Skip JSON whitespace. -/
def skipJsonWs : List Char → List Char
  | c :: cs => if jsonWs c then skipJsonWs cs else c :: cs
  | [] => []

/-- Decimal digit value. -/
def digitVal (c : Char) : Nat := c.toNat - '0'.toNat

/-- Fold a digit list into a natural number. -/
def digitsToNat (ds : List Char) : Nat := ds.foldl (fun a c => a * 10 + digitVal c) 0

/-- Parse one JSON string body after the opening quote, handling the escape
sequences of the JSON grammar (including `\uXXXX`). -/
def pStringBody : List Char → List Char → Option (String × List Char)
  | acc, '"' :: cs => some (String.mk acc.reverse, cs)
  | acc, '\\' :: c :: cs =>
    match c with
    | '"' => pStringBody ('"' :: acc) cs
    | '\\' => pStringBody ('\\' :: acc) cs
    | '/' => pStringBody ('/' :: acc) cs
    | 'b' => pStringBody ('\x08' :: acc) cs
    | 'f' => pStringBody ('\x0c' :: acc) cs
    | 'n' => pStringBody ('\n' :: acc) cs
    | 'r' => pStringBody ('\r' :: acc) cs
    | 't' => pStringBody ('\t' :: acc) cs
    | 'u' =>
      match cs with
      | h1 :: h2 :: h3 :: h4 :: cs' =>
        let hv : Char → Option Nat := fun h =>
          if h.isDigit then some (digitVal h)
          else if 'a' ≤ h ∧ h ≤ 'f' then some (h.toNat - 'a'.toNat + 10)
          else if 'A' ≤ h ∧ h ≤ 'F' then some (h.toNat - 'A'.toNat + 10)
          else none
        match hv h1, hv h2, hv h3, hv h4 with
        | some a, some b, some c', some d =>
          pStringBody (Char.ofNat (((a * 16 + b) * 16 + c') * 16 + d) :: acc) cs'
        | _, _, _, _ => none
      | _ => none
    | _ => none
  | acc, c :: cs => if c.toNat < 0x20 then none else pStringBody (c :: acc) cs
  | _, [] => none

/-- Parse an optional exponent part and build the numeric value.  `frac`
is `none` when no fractional part was present. -/
def pNumExp (m : Int) (frac : Option (List Char)) (s3 : List Char) :
    Option (Json × List Char) :=
  match s3 with
  | e :: rest =>
    if e = 'e' ∨ e = 'E' then
      let (esign, r2) := match rest with
        | '-' :: r => ((-1 : Int), r)
        | '+' :: r => ((1 : Int), r)
        | _ => ((1 : Int), rest)
      let ed := r2.takeWhile Char.isDigit
      if ed.isEmpty then none
      else
        some (.flt m ((frac.getD []).map digitVal)
                (esign * Int.ofNat (digitsToNat ed)), r2.drop ed.length)
    else
      match frac with
      | some fd => some (.flt m (fd.map digitVal) 0, s3)
      | none => some (.num m, s3)
  | [] =>
    match frac with
    | some fd => some (.flt m (fd.map digitVal) 0, s3)
    | none => some (.num m, s3)

/-- Parse a JSON number starting at the current position. -/
def pNumber (s : List Char) : Option (Json × List Char) :=
  let (neg, s1) := match s with
    | '-' :: rest => (true, rest)
    | _ => (false, s)
  let intDigits := s1.takeWhile Char.isDigit
  let s2 := s1.drop intDigits.length
  if intDigits.isEmpty then none
  else if 1 < intDigits.length ∧ intDigits.headD '0' = '0' then none
  else
    let m : Int := Int.ofNat (digitsToNat intDigits)
    let m := if neg then -m else m
    match s2 with
    | '.' :: rest =>
      let fd := rest.takeWhile Char.isDigit
      -- a dot not followed by a digit is a parse error in Python's json
      if fd.isEmpty then none
      else pNumExp m (some fd) (rest.drop fd.length)
    | _ => pNumExp m none s2

mutual

/-- Fueled recursive-descent parser for one JSON value. -/
def pVal : Nat → List Char → Option (Json × List Char)
  | 0, _ => none
  | fuel + 1, s =>
    match skipJsonWs s with
    | [] => none
    | 'n' :: 'u' :: 'l' :: 'l' :: cs => some (.null, cs)
    | 't' :: 'r' :: 'u' :: 'e' :: cs => some (.bool true, cs)
    | 'f' :: 'a' :: 'l' :: 's' :: 'e' :: cs => some (.bool false, cs)
    | '"' :: cs =>
      match pStringBody [] cs with
      | some (str, cs') => some (.str str, cs')
      | none => none
    | '[' :: cs =>
      match skipJsonWs cs with
      | ']' :: cs' => some (.arr [], cs')
      | cs' =>
        match pArrItems fuel cs' with
        | some (xs, cs'') => some (.arr xs, cs'')
        | none => none
    | '{' :: cs =>
      match skipJsonWs cs with
      | '}' :: cs' => some (.obj [], cs')
      | cs' =>
        match pObjItems fuel cs' with
        | some (fs, cs'') => some (.obj fs, cs'')
        | none => none
    | s' => pNumber s'

/-- Parse one or more comma-separated array elements then `]`. -/
def pArrItems : Nat → List Char → Option (List Json × List Char)
  | 0, _ => none
  | fuel + 1, s =>
    match pVal fuel s with
    | some (v, rest) =>
      match skipJsonWs rest with
      | ',' :: rest' =>
        match pArrItems fuel rest' with
        | some (xs, rest'') => some (v :: xs, rest'')
        | none => none
      | ']' :: rest' => some ([v], rest')
      | _ => none
    | none => none

/-- Parse one or more comma-separated object members then `}`. -/
def pObjItems : Nat → List Char → Option (List (String × Json) × List Char)
  | 0, _ => none
  | fuel + 1, s =>
    match skipJsonWs s with
    | '"' :: cs =>
      match pStringBody [] cs with
      | some (key, rest) =>
        match skipJsonWs rest with
        | ':' :: rest' =>
          match pVal fuel rest' with
          | some (v, rest'') =>
            match skipJsonWs rest'' with
            | ',' :: r3 =>
              match pObjItems fuel r3 with
              | some (fs, r4) => some ((key, v) :: fs, r4)
              | none => none
            | '}' :: r3 => some ([(key, v)], r3)
            | _ => none
          | none => none
        | _ => none
      | none => none
    | _ => none

end

/-- Python's `json.loads`: parse a complete JSON document, requiring only
whitespace after the value; `none` models a raised `JSONDecodeError`. -/
def json_loads (s : String) : Option Json :=
  let cs := s.toList
  match pVal (2 * cs.length + 2) cs with
  | some (v, rest) => if (skipJsonWs rest).isEmpty then some v else none
  | none => none

/-! ### `GeminiService._clean_json_response` -/

/-- `_clean_json_response` (gemini_service.py lines 524-555): strip, drop
code-fence markers, cut to the span from the first `[`/`{` to the last
`]`/`}`, strip again. -/
def clean_json_response (text : String) : String :=
  let text := pyStrip text
  let text :=
    if pyStartsWith text "```json" then pyDrop text 7
    else if pyStartsWith text "```" then pyDrop text 3
    else text
  let text := if pyEndsWith text "```" then pyDropRight text 3 else text
  -- remove any text before the first [ or {
  let cs := text.toList
  let text :=
    match cs.findIdx? (fun c => c == '[' || c == '{') with
    | some i => if 0 < i then String.mk (cs.drop i) else text
    | none => text
  -- remove any text after the last ] or }
  let cs2 := text.toList
  let text :=
    match cs2.reverse.findIdx? (fun c => c == ']' || c == '}') with
    | some r => String.mk (cs2.take (cs2.length - r))
    | none => text
  pyStrip text

/-- `_extract_json_array` (lines 557-565): the span from the first `[` to
the last `]`, or `""` when there is no such span. -/
def extract_json_array (text : String) : String :=
  let cs := text.toList
  match cs.findIdx? (fun c => c == '[') with
  | none => ""
  | some s =>
    match cs.reverse.findIdx? (fun c => c == ']') with
    | none => ""
    | some r =>
      let e := cs.length - 1 - r
      if s < e then String.mk ((cs.drop s).take (e - s + 1)) else ""

/-! ### `_fix_common_json_errors`: the five `re.sub` rewrites, in order.
Each is a left-to-right scan replacing non-overlapping matches, exactly as
`re.sub` does; the fuel argument is bounded by the input length. -/

/-- `re.sub(r',(\s*[}\]])', r'\1', text)`: drop a comma standing before a
closing bracket. -/
def rmTrailingCommas : Nat → List Char → List Char
  | 0, cs => cs
  | fuel + 1, cs =>
    match cs with
    | [] => []
    | ',' :: rest =>
      let ws := rest.takeWhile pyWsChar
      match rest.drop ws.length with
      | c :: rest' =>
        if c == '}' || c == ']' then ws ++ c :: rmTrailingCommas fuel rest'
        else ',' :: rmTrailingCommas fuel rest
      | [] => ',' :: rmTrailingCommas fuel rest
    | c :: rest => c :: rmTrailingCommas fuel rest

/-- `re.sub(r"'([^']*)':", r'"\1":', text)`: single-quoted keys to
double-quoted keys. -/
def fixQuoteKeys : Nat → List Char → List Char
  | 0, cs => cs
  | fuel + 1, cs =>
    match cs with
    | [] => []
    | c :: rest =>
      if c == '\'' then
        let content := rest.takeWhile (fun ch => !(ch == '\''))
        match rest.drop content.length with
        | '\'' :: ':' :: rest' =>
          '"' :: content ++ '"' :: ':' :: fixQuoteKeys fuel rest'
        | _ => c :: fixQuoteKeys fuel rest
      else c :: fixQuoteKeys fuel rest

/-- `re.sub(r":\s*'([^']*)'", r': "\1"', text)`: single-quoted string
values to double-quoted ones (whitespace after the colon is normalised to
one space by the replacement template). -/
def fixQuoteVals : Nat → List Char → List Char
  | 0, cs => cs
  | fuel + 1, cs =>
    match cs with
    | [] => []
    | ':' :: rest =>
      let ws := rest.takeWhile pyWsChar
      match rest.drop ws.length with
      | '\'' :: r2 =>
        let content := r2.takeWhile (fun ch => !(ch == '\''))
        match r2.drop content.length with
        | '\'' :: rest' =>
          ':' :: ' ' :: '"' :: content ++ '"' :: fixQuoteVals fuel rest'
        | _ => ':' :: fixQuoteVals fuel rest
      | _ => ':' :: fixQuoteVals fuel rest
    | c :: rest => c :: fixQuoteVals fuel rest

/-- `re.sub(r'//.*?\n', '\n', text)`: drop a line comment up to (and
keeping) the next newline; a final comment with no newline is kept. -/
def stripLineComments : Nat → List Char → List Char
  | 0, cs => cs
  | fuel + 1, cs =>
    match cs with
    | [] => []
    | '/' :: '/' :: rest =>
      match rest.dropWhile (fun ch => !(ch == '\n')) with
      | '\n' :: rest' => '\n' :: stripLineComments fuel rest'
      | _ => '/' :: stripLineComments fuel ('/' :: rest)
    | c :: rest => c :: stripLineComments fuel rest

/-- The suffix after the first `*/`, if any. -/
def afterBlockClose : List Char → Option (List Char)
  | '*' :: '/' :: cs => some cs
  | _ :: cs => afterBlockClose cs
  | [] => none

/-- `re.sub(r'/\*.*?\*/', '', text, flags=re.DOTALL)`: drop each block
comment up to the nearest `*/`; an unterminated one is kept. -/
def stripBlockComments : Nat → List Char → List Char
  | 0, cs => cs
  | fuel + 1, cs =>
    match cs with
    | [] => []
    | '/' :: '*' :: rest =>
      match afterBlockClose rest with
      | some rest' => stripBlockComments fuel rest'
      | none => '/' :: stripBlockComments fuel ('*' :: rest)
    | c :: rest => c :: stripBlockComments fuel rest

/-- `re.sub(r'}\s*{', '}, {', text)`: insert the missing comma between
adjacent object boundaries. -/
def fixMissingCommas : Nat → List Char → List Char
  | 0, cs => cs
  | fuel + 1, cs =>
    match cs with
    | [] => []
    | '}' :: rest =>
      let ws := rest.takeWhile pyWsChar
      match rest.drop ws.length with
      | '{' :: rest' => '}' :: ',' :: ' ' :: '{' :: fixMissingCommas fuel rest'
      | _ => '}' :: fixMissingCommas fuel rest
    | c :: rest => c :: fixMissingCommas fuel rest

/-- `_fix_common_json_errors` (lines 567-587): apply the five rewrite rules
in the source's order. -/
def fix_common_json_errors (text : String) : String :=
  let t1 := rmTrailingCommas (text.toList.length + 1) text.toList
  let t2 := fixQuoteKeys (t1.length + 1) t1
  let t3 := fixQuoteVals (t2.length + 1) t2
  let t4 := stripLineComments (t3.length + 1) t3
  let t5 := stripBlockComments (t4.length + 1) t4
  String.mk (fixMissingCommas (t5.length + 1) t5)

/-! ### `_parse_line_by_line` and the enhanced array parser -/

/-- A line survives the filter when it is nonempty and is not a `//` or
`#` comment line. -/
def keepLine (l : String) : Bool :=
  !(l == "") && !(pyStartsWith l "//") && !(pyStartsWith l "#")

/-- `_parse_line_by_line` (lines 589-605): strip every line, drop blank and
comment-only lines, rejoin with newlines and parse; any parse failure (and
the no-lines case) yields the `[]` marker.  Note that a successfully parsed
value is returned as-is, whatever its shape. -/
def parse_line_by_line (text : String) : Json :=
  let lines := (splitCharL '\n' text.toList).map (fun l => pyStrip (String.mk l))
  let clean_lines := lines.filter keepLine
  if clean_lines.isEmpty then .arr []
  else
    match json_loads (String.mk (joinCharL '\n' (clean_lines.map String.toList))) with
    | some v => v
    | none => .arr []

/-- Wrap a non-array value into a one-element array
(`result if isinstance(result, list) else [result]`). -/
def wrapNonArr : Json → Json
  | .arr xs => .arr xs
  | v => .arr [v]

/-- `_parse_json_array_response_enhanced` (lines 471-522): the four-strategy
recovery chain.  Strategy 1 returns only lists and single objects (the
latter wrapped); strategies 2 and 3 wrap any non-list result; strategy 4
returns the line-filtered parse unchanged, and only when it is truthy.
`Json.arr []` is the failure marker. -/
def parse_json_array_response_enhanced (text : String) : Json :=
  let cleaned_text := clean_json_response text
  -- Strategy 1: clean and direct parse
  match json_loads cleaned_text with
  | some (.arr xs) => .arr xs
  | some (.obj fs) => .arr [.obj fs]
  | _ =>
  -- Strategy 2: extract array content
  let array_content := extract_json_array cleaned_text
  match (if array_content == "" then none else json_loads array_content) with
  | some v => wrapNonArr v
  | none =>
  -- Strategy 3: fix common JSON errors
  let fixed_json := fix_common_json_errors cleaned_text
  match (if fixed_json == "" then none else json_loads fixed_json) with
  | some v => wrapNonArr v
  | none =>
  -- Strategy 4: parse line by line
  let line_parsed := parse_line_by_line text
  if jsonTruthy line_parsed then line_parsed else .arr []

/-- `_parse_json_array_response` (lines 444-469), the non-enhanced variant
used by `generate_synthetic_data`: strip fences (note the `[4:]` slice for
a bare fence), slice from the first `[` to the last `]` when that span is
nonempty, parse it (or else parse the whole text); any failure yields the
`[]` marker. -/
def parse_json_array_response (text : String) : Json :=
  let text := pyStrip text
  let text :=
    if pyStartsWith text "```json" then pyDrop text 7
    else if pyStartsWith text "```" then pyDrop text 4
    else text
  let text := if pyEndsWith text "```" then pyDropRight text 3 else text
  let text := pyStrip text
  let cs := text.toList
  let fallbackParse :=
    match json_loads text with
    | some v => v
    | none => Json.arr []
  match cs.findIdx? (fun c => c == '[') with
  | some s =>
    match cs.reverse.findIdx? (fun c => c == ']') with
    | some r =>
      let e := cs.length - 1 - r
      if s ≤ e then
        match json_loads (String.mk ((cs.drop s).take (e + 1 - s))) with
        | some v => v
        | none => Json.arr []
      else fallbackParse
    | none => fallbackParse
  | none => fallbackParse

/-! ### The four recovery strategies as standalone functions.

These re-state each strategy of `_parse_json_array_response_enhanced`
independently so that the chain structure of the monolithic function can be
proved, and so that claims can speak about an individual strategy. -/

/-- Strategy 1 with its acceptance rule: the direct parse of the cleaned
text, kept only when it yields a list (returned as-is) or a single object
(wrapped). -/
def strat1Res (t : String) : Option Json :=
  match json_loads (clean_json_response t) with
  | some (.arr xs) => some (.arr xs)
  | some (.obj fs) => some (.arr [.obj fs])
  | _ => none

/-- Strategy 2's raw parse: the bracket-extracted span, parsed, provided
the span is nonempty. -/
def strat2Parse (t : String) : Option Json :=
  let array_content := extract_json_array (clean_json_response t)
  if array_content == "" then none else json_loads array_content

/-- Strategy 3's raw parse: the syntax-repaired cleaned text, parsed,
provided it is nonempty. -/
def strat3Parse (t : String) : Option Json :=
  let fixed_json := fix_common_json_errors (clean_json_response t)
  if fixed_json == "" then none else json_loads fixed_json

/-- Strategy 4's raw parse: blank and comment-only lines dropped, the rest
rejoined and parsed (`none` also covers the no-surviving-lines case). -/
def strat4Parse (t : String) : Option Json :=
  let lines := (splitCharL '\n' t.toList).map (fun l => pyStrip (String.mk l))
  let clean_lines := lines.filter keepLine
  if clean_lines.isEmpty then none
  else json_loads (String.mk (joinCharL '\n' (clean_lines.map String.toList)))

/-! ### The fallback generator (`_generate_intelligent_fallback_data`,
`_generate_realistic_value`, gemini_service.py lines 682-724) -/

/-- The recognized constraint keys (`constraints.get('min'/'max', default)`). -/
structure Constraints where
  min? : Option Int := none
  max? : Option Int := none

/-- A field spec as consumed by `_generate_realistic_value`
(`field_info.get('type', 'string')`, `.get('examples', [])`,
`.get('constraints', {})`). -/
structure FieldInfo where
  type? : Option String := none
  examples : List Json := []
  constraints : Constraints := {}

/-- The ambient nondeterminism consumed by one `_generate_realistic_value`
call: the string `str(uuid.uuid4())` would produce, and the string
`(datetime.now() - timedelta(days=d)).isoformat()` would produce as a
function of the day offset `d`. -/
structure Env where
  uuidStr : String
  nowIso : Nat → String

/-- `str.zfill` (for the non-negative digit strings used here). -/
def zfill (s : String) (w : Nat) : String :=
  if s.length < w then String.mk (List.replicate (w - s.length) '0') ++ s else s

/-- A record produced by generation: a Python dict in insertion order. -/
abbrev Obj := List (String × Json)

/-- A schema: a Python dict mapping field name to field spec. -/
abbrev Schema := List (String × FieldInfo)

/-- `_generate_realistic_value` (lines 695-724), with the nondeterministic
sources (`uuid.uuid4()`, `datetime.now()`) supplied through `env`. -/
def generate_realistic_value (env : Env) (field_info : FieldInfo)
    (field_name : String) (index : Nat) : Json :=
  let field_type := field_info.type?.getD "string"
  let examples := field_info.examples
  let constraints := field_info.constraints
  if !examples.isEmpty then examples.getD (index % examples.length) .null
  else
    let field_lower := lowerS field_name
    if containsSub field_lower "patient" && (field_type == "string") then
      .str ("PT" ++ zfill (toString (1000 + index)) 4)
    else if containsSub field_lower "name" then
      let names : List String :=
        ["Ahmad Hassan", "Fatima Al-Zahra", "Omar Khalil", "Aisha Mahmoud",
         "Ali Rahman"]
      .str (names.getD (index % names.length) "")
    else if containsSub field_lower "age" then
      .num (25 + ((index : Int) * 3) % 50)
    else if field_type == "uuid" then .str env.uuidStr
    else if field_type == "number" then
      let min_val := constraints.min?.getD 1
      let max_val := constraints.max?.getD 1000
      .num (min_val + Int.fdiv ((index : Int) * (max_val - min_val)) 100)
    else if field_type == "date" || field_type == "datetime" then
      .str (env.nowIso (index * 10))
    else .str (field_name ++ "_" ++ toString (index + 1))

/-- `_generate_intelligent_fallback_data` (lines 682-693): one record per
index in `range(row_count)`, each built by inserting every schema field in
order.  `envf i k` supplies the fresh-value sources consumed by the call
for row `i`, field `k`. -/
def generate_intelligent_fallback_data (envf : Nat → String → Env)
    (schema : Schema) (row_count : Nat) : List Obj :=
  (List.range row_count).map (fun i =>
    schema.map (fun kv => (kv.1, generate_realistic_value (envf i kv.1) kv.2 kv.1 i)))

/-- Exactly the conditions under which `_generate_realistic_value` never
consults its nondeterministic sources, following the branch order of the
source: examples present, or one of the name heuristics fires, or the
declared type is neither `uuid` nor `date`/`datetime`. -/
def envFree (field_info : FieldInfo) (field_name : String) : Bool :=
  let field_type := field_info.type?.getD "string"
  let examples := field_info.examples
  if !examples.isEmpty then true
  else
    let field_lower := lowerS field_name
    if containsSub field_lower "patient" && (field_type == "string") then true
    else if containsSub field_lower "name" then true
    else if containsSub field_lower "age" then true
    else if field_type == "uuid" then false
    else if field_type == "number" then true
    else if field_type == "date" || field_type == "datetime" then false
    else true

/-! ### Dict helpers and the two failure-recovering agents
(`agent_orchestrator.py` lines 246-285 and 402-438) -/

/-- Python `dict.get(k)` on an insertion-ordered dict. -/
def getO (o : Obj) (k : String) : Option Json :=
  (o.find? (fun kv => kv.1 == k)).map (fun kv => kv.2)

/-- Python `d[k] = v`: overwrite in place if present, else append. -/
def setO (o : Obj) (k : String) (v : Json) : Obj :=
  if (o.find? (fun kv => kv.1 == k)).isSome then
    o.map (fun kv => if kv.1 == k then (kv.1, v) else kv)
  else o ++ [(k, v)]

/-- Python `value == 'lit'` for a JSON value against a string literal. -/
def isStrEq : Json → String → Bool
  | .str s, t => s == t
  | _, _ => false

/-- Python `x + 10` on a score read from a dict: succeeds on ints (and
bools, which are int subclasses); raises `TypeError` otherwise.  JSON
floats are not modelled here: a float-valued score would add fine in
Python, so results about the error path only use non-numeric scores. -/
def jsonAsInt : Json → Except String Int
  | .num n => .ok n
  | .bool b => .ok (if b then 1 else 0)
  | _ => .error "unsupported operand type"

/-- The fallback assessment used when Gemini is unavailable
(lines 259-266). -/
def fallbackPrivacyObj : Obj :=
  [("privacy_score", .num 85), ("pii_detected", .arr []),
   ("sensitive_attributes", .arr []), ("risk_level", .str "medium"),
   ("compliance_notes",
     .arr [.str "Basic privacy assessment - AI analysis unavailable"]),
   ("recommendations",
     .arr [.str "Enable Gemini API for advanced privacy analysis"])]

/-- `PrivacyAgent.assess_privacy` (lines 247-285).  The Gemini call is
abstracted as the oracle `gem`; every exception inside the `try` block is
caught and answered with the default-score error object. -/
def assess_privacy (geminiAvail : Bool) (gem : Except String Obj)
    (domain_context : Obj) : Obj :=
  let body : Except String Obj := do
    let privacy_assessment ← if geminiAvail then gem else .ok fallbackPrivacyObj
    let domain := (getO domain_context "domain").getD (.str "general")
    if isStrEq domain "healthcare" then
      let pa1 := setO privacy_assessment "compliance_requirements"
        (.arr [.str "HIPAA", .str "GDPR"])
      let s ← jsonAsInt ((getO pa1 "privacy_score").getD (.num 85))
      pure (setO pa1 "privacy_score" (.num (min (s + 10) 99)))
    else if isStrEq domain "finance" then
      pure (setO privacy_assessment "compliance_requirements"
        (.arr [.str "PCI-DSS", .str "SOX", .str "GDPR"]))
    else pure privacy_assessment
  match body with
  | .ok r => r
  | .error e => [("privacy_score", .num 85), ("risks", .arr []), ("error", .str e)]

/-- The fallback analysis used when Gemini is unavailable (lines 413-418). -/
def fallbackBiasObj : Obj :=
  [("bias_score", .num 88), ("detected_biases", .arr []),
   ("bias_types", .arr []),
   ("recommendations", .arr [.str "Enable Gemini API for advanced bias detection"])]

/-- `BiasDetectionAgent._get_domain_bias_checks` (lines 431-438). -/
def get_domain_bias_checks (domain : Json) : Json :=
  if isStrEq domain "healthcare" then
    .arr [.str "Gender bias in treatment", .str "Age bias in diagnosis",
          .str "Racial bias in outcomes"]
  else if isStrEq domain "finance" then
    .arr [.str "Income bias in lending", .str "Geographic bias",
          .str "Credit history bias"]
  else if isStrEq domain "retail" then
    .arr [.str "Demographic bias in recommendations", .str "Price bias",
          .str "Geographic bias"]
  else .arr [.str "General demographic bias", .str "Selection bias"]

/-- `BiasDetectionAgent.detect_bias` (lines 403-429). -/
def detect_bias (geminiAvail : Bool) (gem : Except String Obj)
    (domain_context : Obj) : Obj :=
  let body : Except String Obj := do
    let bias_analysis ← if geminiAvail then gem else .ok fallbackBiasObj
    let domain := (getO domain_context "domain").getD (.str "general")
    pure (setO bias_analysis "domain_specific_checks" (get_domain_bias_checks domain))
  match body with
  | .ok r => r
  | .error e => [("bias_score", .num 88), ("bias_types", .arr []), ("error", .str e)]

/-! ### The orchestrator (`AgentOrchestrator.orchestrate_generation`,
agent_orchestrator.py lines 39-202) -/

/-- One emitted progress update (`send_update`): the pipeline step name and
the progress percentage (or `-1` for the terminal failure event).  The
message text and timestamp carry no claim-relevant information. -/
structure ProgressEvent where
  step : String
  progress : Int

/-- The stage collaborators, abstracted as oracles that either return a
stage output or raise.  Each stage function receives the accumulated
results it is passed in the source. -/
structure StageOracle where
  domainStage : Except String Obj
  privacyStage : Obj → Except String Obj
  biasStage : Obj → Except String Obj
  relationshipStage : Obj → Except String Obj
  qualityPlanStage : Obj → Obj → Obj → Obj → Except String Obj
  generationStage : Obj → Obj → Obj → Obj → Obj → Except String (List Obj)
  qualityValidationStage : List Obj → Except String Obj

/-- The assembled result (lines 154-176), restricted to the fields the
claims speak about. -/
structure OrchResult where
  data : List Obj
  quality_score : Json
  privacy_score : Json
  bias_score : Json

/-- The observable trace of one `orchestrate_generation` run: emitted
progress events, the stage operations invoked (in order), and the final
outcome (`.error` models re-raising to the caller). -/
structure OrchTrace where
  events : List ProgressEvent
  calls : List String
  outcome : Except String OrchResult

/-- `orchestrate_generation` (lines 85-186): fixed stage sequence with a
progress event at each stage boundary; any exception stops the pipeline,
emits the `-1` event and re-raises. -/
def orchestrate (o : StageOracle) : OrchTrace :=
  let ev0 : List ProgressEvent :=
    [⟨"initialization", 5⟩, ⟨"domain_analysis", 10⟩]
  match o.domainStage with
  | .error e => ⟨ev0 ++ [⟨"error", -1⟩], ["domain_analysis"], .error e⟩
  | .ok domain_analysis =>
  let ev1 := ev0 ++ [⟨"domain_analysis", 25⟩, ⟨"privacy_assessment", 30⟩]
  match o.privacyStage domain_analysis with
  | .error e =>
    ⟨ev1 ++ [⟨"error", -1⟩], ["domain_analysis", "privacy_assessment"], .error e⟩
  | .ok privacy_assessment =>
  let ev2 := ev1 ++ [⟨"privacy_assessment", 40⟩, ⟨"bias_detection", 45⟩]
  match o.biasStage domain_analysis with
  | .error e =>
    ⟨ev2 ++ [⟨"error", -1⟩],
     ["domain_analysis", "privacy_assessment", "bias_detection"], .error e⟩
  | .ok bias_analysis =>
  let ev3 := ev2 ++ [⟨"bias_detection", 55⟩, ⟨"relationship_mapping", 60⟩]
  match o.relationshipStage domain_analysis with
  | .error e =>
    ⟨ev3 ++ [⟨"error", -1⟩],
     ["domain_analysis", "privacy_assessment", "bias_detection",
      "relationship_mapping"], .error e⟩
  | .ok relationship_analysis =>
  let ev4 := ev3 ++ [⟨"relationship_mapping", 70⟩, ⟨"quality_planning", 72⟩]
  match o.qualityPlanStage domain_analysis privacy_assessment bias_analysis
      relationship_analysis with
  | .error e =>
    ⟨ev4 ++ [⟨"error", -1⟩],
     ["domain_analysis", "privacy_assessment", "bias_detection",
      "relationship_mapping", "quality_planning"], .error e⟩
  | .ok quality_plan =>
  let ev5 := ev4 ++ [⟨"quality_planning", 75⟩, ⟨"data_generation", 80⟩]
  match o.generationStage domain_analysis privacy_assessment bias_analysis
      relationship_analysis quality_plan with
  | .error e =>
    ⟨ev5 ++ [⟨"error", -1⟩],
     ["domain_analysis", "privacy_assessment", "bias_detection",
      "relationship_mapping", "quality_planning", "data_generation"], .error e⟩
  | .ok synthetic_data =>
  let ev6 := ev5 ++ [⟨"data_generation", 90⟩, ⟨"quality_validation", 92⟩]
  match o.qualityValidationStage synthetic_data with
  | .error e =>
    ⟨ev6 ++ [⟨"error", -1⟩],
     ["domain_analysis", "privacy_assessment", "bias_detection",
      "relationship_mapping", "quality_planning", "data_generation",
      "quality_validation"], .error e⟩
  | .ok final_quality_assessment =>
  let ev7 := ev6 ++ [⟨"quality_validation", 95⟩, ⟨"final_assembly", 98⟩]
  let result : OrchResult :=
    { data := synthetic_data
      quality_score := (getO final_quality_assessment "overall_score").getD (.num 92)
      privacy_score := (getO privacy_assessment "privacy_score").getD (.num 95)
      bias_score := (getO bias_analysis "bias_score").getD (.num 88) }
  ⟨ev7 ++ [⟨"completion", 100⟩],
   ["domain_analysis", "privacy_assessment", "bias_detection",
    "relationship_mapping", "quality_planning", "data_generation",
    "quality_validation", "final_assembly"], .ok result⟩

/-- The declared stage order of the pipeline. -/
def fullStageOrder : List String :=
  ["domain_analysis", "privacy_assessment", "bias_detection",
   "relationship_mapping", "quality_planning", "data_generation",
   "quality_validation", "final_assembly"]

/-- Boolean list-prefix test. -/
def isPrefixOfList [BEq α] : List α → List α → Bool
  | [], _ => true
  | _ :: _, [] => false
  | p :: ps, c :: cs => p == c && isPrefixOfList ps cs

/-- Boolean non-decreasing test on a list of integers. -/
def nonDecreasingInt : List Int → Bool
  | a :: b :: rest => decide (a ≤ b) && nonDecreasingInt (b :: rest)
  | _ => true

/-- A run in which every stage succeeds (with empty stage outputs). -/
def allOkOracle : StageOracle :=
  ⟨.ok [], fun _ => .ok [], fun _ => .ok [], fun _ => .ok [],
   fun _ _ _ _ => .ok [], fun _ _ _ _ _ => .ok [], fun _ => .ok []⟩

/-! ### `ConnectionManager` (websocket_manager.py) -/

/-- `ConnectionManager.disconnect` (lines 29-33): remove the client if it
is currently registered. -/
def disconnect (reg : List String) (client_id : String) : List String :=
  if client_id ∈ reg then reg.erase client_id else reg

/-- What one `broadcast` call did: every attempted delivery (client id and
whether `send_text` succeeded), and the registry left behind. -/
structure BroadcastTrace where
  attempts : List (String × Bool)
  registry : List String

/-- `ConnectionManager.broadcast` (lines 45-61): short-circuit on an empty
registry; otherwise attempt delivery to every registered client, collect
the failed ones, and disconnect them after the loop.  `sendOk c` abstracts
whether `send_text` to `c` raises. -/
def broadcast (reg : List String) (sendOk : String → Bool) : BroadcastTrace :=
  if reg.isEmpty then ⟨[], reg⟩
  else
    let attempts := reg.map (fun c => (c, sendOk c))
    let disconnected := reg.filter (fun c => !(sendOk c))
    ⟨attempts, disconnected.foldl disconnect reg⟩

/-! ### `GeminiService.generate_synthetic_data` (lines 173-239) -/

/-- The recognized configuration options (`config.get('rowCount', 100)`,
`config.get('domain', 'general')`). -/
structure GenConfig where
  rowCount? : Option Nat := none
  domain? : Option String := none

/-- Python truthiness plus `len`/slicing behavior of the parsed value on
the model path of `generate_synthetic_data`:

* a nonempty list  -> `data[:row_count]`, the first `row_count` elements;
* a nonempty string -> `data[:row_count]`, a string slice (returned as-is
  by the source, a latent type confusion kept faithfully here);
* anything else -> falsy values raise `ValueError("No data generated")`
  and truthy dicts/numbers/booleans fail at `len`/slicing with
  `TypeError`; both are caught by the surrounding `except`, which falls
  back to the deterministic generator. -/
def generate_synthetic_data (geminiInit : Bool) (resp : Except String String)
    (schema : Schema) (config : GenConfig) (envf : Nat → String → Env) : Json :=
  if !geminiInit then
    .arr ((generate_intelligent_fallback_data envf schema
      (config.rowCount?.getD 100)).map Json.obj)
  else
    let row_count := config.rowCount?.getD 100
    let fallback : Json :=
      .arr ((generate_intelligent_fallback_data envf schema row_count).map Json.obj)
    match resp with
    | .error _ => fallback
    | .ok text =>
      match parse_json_array_response text with
      | .arr xs => if xs.isEmpty then fallback else .arr (xs.take row_count)
      | .str s => if s == "" then fallback else .str (pyTake s row_count)
      | _ => fallback

/-- The number of records in a returned value (a non-list holds none). -/
def jsonRecCount : Json → Nat
  | .arr xs => xs.length
  | _ => 0

/-! ## Theorems -/

theorem json_loads_smoke1 :
    json_loads " [1, 2] " = some (.arr [.num 1, .num 2]) := rfl

theorem clean_smoke : clean_json_response "```json\n[1]\n```" = "[1]" := rfl

theorem pe_smoke1 :
    parse_json_array_response_enhanced " [\x7b\"a\": 1\x7d] " =
      .arr [.obj [("a", .num 1)]] := rfl

theorem parse_line_by_line_eq_strat4 (t : String) :
    parse_line_by_line t = (strat4Parse t).getD (.arr []) := by
  simp only [parse_line_by_line, strat4Parse]
  cases hne : (((splitCharL '\n' t.toList).map (fun l => pyStrip (String.mk l))).filter
      keepLine).isEmpty with
  | true => rfl
  | false =>
    simp only [Bool.false_eq_true, if_false]
    cases json_loads (String.mk (joinCharL '\n'
        ((((splitCharL '\n' t.toList).map (fun l => pyStrip (String.mk l))).filter
          keepLine).map String.toList))) <;> rfl

theorem pe_strat1 (t : String) (v : Json) (h : strat1Res t = some v) :
    parse_json_array_response_enhanced t = v := by
  simp only [strat1Res] at h
  simp only [parse_json_array_response_enhanced]
  cases hj : json_loads (clean_json_response t) with
  | none => rw [hj] at h; cases h
  | some w =>
    rw [hj] at h
    cases w with
    | arr xs => simp only [Option.some.injEq] at h; rw [← h]
    | obj fs => simp only [Option.some.injEq] at h; rw [← h]
    | null => cases h
    | bool b => cases h
    | num n => cases h
    | flt m f e => cases h
    | str s => cases h

theorem pe_strat2 (t : String) (v : Json) (h1 : strat1Res t = none)
    (h2 : strat2Parse t = some v) :
    parse_json_array_response_enhanced t = wrapNonArr v := by
  simp only [strat1Res] at h1
  simp only [strat2Parse] at h2
  simp only [parse_json_array_response_enhanced]
  cases hj : json_loads (clean_json_response t) with
  | none => rw [h2]
  | some w =>
    rw [hj] at h1
    cases w with
    | arr xs => cases h1
    | obj fs => cases h1
    | null => rw [h2]
    | bool b => rw [h2]
    | num n => rw [h2]
    | flt m f e => rw [h2]
    | str s => rw [h2]

theorem pe_strat3 (t : String) (v : Json) (h1 : strat1Res t = none)
    (h2 : strat2Parse t = none) (h3 : strat3Parse t = some v) :
    parse_json_array_response_enhanced t = wrapNonArr v := by
  simp only [strat1Res] at h1
  simp only [strat2Parse] at h2
  simp only [strat3Parse] at h3
  simp only [parse_json_array_response_enhanced]
  cases hj : json_loads (clean_json_response t) with
  | none => rw [h2, h3]
  | some w =>
    rw [hj] at h1
    cases w with
    | arr xs => cases h1
    | obj fs => cases h1
    | null => rw [h2, h3]
    | bool b => rw [h2, h3]
    | num n => rw [h2, h3]
    | flt m f e => rw [h2, h3]
    | str s => rw [h2, h3]

theorem pe_strat4 (t : String) (h1 : strat1Res t = none)
    (h2 : strat2Parse t = none) (h3 : strat3Parse t = none) :
    parse_json_array_response_enhanced t =
      (if jsonTruthy (parse_line_by_line t) then parse_line_by_line t
       else .arr []) := by
  simp only [strat1Res] at h1
  simp only [strat2Parse] at h2
  simp only [strat3Parse] at h3
  simp only [parse_json_array_response_enhanced]
  cases hj : json_loads (clean_json_response t) with
  | none => rw [h2, h3]
  | some w =>
    rw [hj] at h1
    cases w with
    | arr xs => cases h1
    | obj fs => cases h1
    | null => rw [h2, h3]
    | bool b => rw [h2, h3]
    | num n => rw [h2, h3]
    | flt m f e => rw [h2, h3]
    | str s => rw [h2, h3]

/-- C1 (corrected): the four strategies are applied in the fixed order and
the first *accepted* result is returned, but acceptance is stricter than
"parses successfully": strategy 1 accepts only lists and objects, and
strategy 4 accepts only truthy parsed values and returns them unwrapped.
This theorem states the actual ordered chain. -/
theorem C1_strategy_chain (t : String) :
    (∀ v, strat1Res t = some v → parse_json_array_response_enhanced t = v) ∧
    (strat1Res t = none → ∀ v, strat2Parse t = some v →
      parse_json_array_response_enhanced t = wrapNonArr v) ∧
    (strat1Res t = none → strat2Parse t = none → ∀ v, strat3Parse t = some v →
      parse_json_array_response_enhanced t = wrapNonArr v) ∧
    (strat1Res t = none → strat2Parse t = none → strat3Parse t = none →
      ∀ v, strat4Parse t = some v →
        parse_json_array_response_enhanced t =
          (if jsonTruthy v then v else .arr [])) ∧
    (strat1Res t = none → strat2Parse t = none → strat3Parse t = none →
      strat4Parse t = none → parse_json_array_response_enhanced t = .arr []) := by
  refine ⟨fun v h => pe_strat1 t v h, fun h1 v h2 => pe_strat2 t v h1 h2,
    fun h1 h2 v h3 => pe_strat3 t v h1 h2 h3, ?_, ?_⟩
  · intro h1 h2 h3 v h4
    rw [pe_strat4 t h1 h2 h3, parse_line_by_line_eq_strat4, h4]
    rfl
  · intro h1 h2 h3 h4
    rw [pe_strat4 t h1 h2 h3, parse_line_by_line_eq_strat4, h4]
    rfl

/-- Witness for C1_strategy_chain: on input `"5"` strategies 1 and 2 fail,
strategy 3 parses the scalar `5`, and the parser returns it wrapped. -/
theorem C1_strategy_chain_witness :
    strat1Res "5" = none ∧ strat2Parse "5" = none ∧
    strat3Parse "5" = some (.num 5) ∧
    parse_json_array_response_enhanced "5" = wrapNonArr (.num 5) :=
  ⟨rfl, rfl, rfl, (C1_strategy_chain "5").2.2.1 rfl rfl (.num 5) rfl⟩

/-- C1 counterexample: on the input `"# c\n0"` strategies 1-3 fail to
parse, strategy 4 parses successfully (yielding the number `0`), yet the
parser returns the failure marker `[]` rather than strategy 4's result, so
it is not true that the result of the first successfully parsing strategy
is returned. -/
theorem C1_counterexample :
    json_loads (clean_json_response "# c\n0") = none ∧
    strat2Parse "# c\n0" = none ∧
    strat3Parse "# c\n0" = none ∧
    strat4Parse "# c\n0" = some (.num 0) ∧
    parse_json_array_response_enhanced "# c\n0" = .arr [] ∧
    Json.arr [] ≠ Json.num 0 ∧ Json.arr [] ≠ Json.arr [Json.num 0] :=
  ⟨rfl, rfl, rfl, rfl, rfl, fun h => Json.noConfusion h, fun h => by cases h⟩

/-- C7 (confirmed): when all four recovery strategies fail to produce a
parsed value, the parser returns the distinguished failure marker `[]`.
(The embedded function is total, which models the source's behavior of
never letting an exception escape: the whole chain is wrapped in a
`try/except` that also returns `[]`.) -/
theorem C7_all_strategies_fail_marker (t : String)
    (h1 : json_loads (clean_json_response t) = none)
    (h2 : strat2Parse t = none) (h3 : strat3Parse t = none)
    (h4 : strat4Parse t = none) :
    parse_json_array_response_enhanced t = .arr [] := by
  have hs1 : strat1Res t = none := by simp only [strat1Res]; rw [h1]
  rw [pe_strat4 t hs1 h2 h3, parse_line_by_line_eq_strat4, h4]
  rfl

/-- Witness for C7: on `"hello"` every strategy fails and `[]` comes back. -/
theorem C7_witness :
    json_loads (clean_json_response "hello") = none ∧
    strat2Parse "hello" = none ∧ strat3Parse "hello" = none ∧
    strat4Parse "hello" = none ∧
    parse_json_array_response_enhanced "hello" = .arr [] :=
  ⟨rfl, rfl, rfl, rfl, C7_all_strategies_fail_marker "hello" rfl rfl rfl rfl⟩

/-- C8 (corrected): strategies 1-3 do wrap a recovered single object into a
one-element list, but strategy 4 returns its parsed value unchanged: a
single object recovered by line filtering is returned bare, not wrapped. -/
theorem C8_object_wrapping (t : String) :
    (∀ fs, json_loads (clean_json_response t) = some (.obj fs) →
      parse_json_array_response_enhanced t = .arr [.obj fs]) ∧
    (strat1Res t = none → ∀ fs, strat2Parse t = some (.obj fs) →
      parse_json_array_response_enhanced t = .arr [.obj fs]) ∧
    (strat1Res t = none → strat2Parse t = none →
      ∀ fs, strat3Parse t = some (.obj fs) →
        parse_json_array_response_enhanced t = .arr [.obj fs]) ∧
    (strat1Res t = none → strat2Parse t = none → strat3Parse t = none →
      ∀ fs, strat4Parse t = some (.obj fs) → fs ≠ [] →
        parse_json_array_response_enhanced t = .obj fs) := by
  refine ⟨?_, ?_, ?_, ?_⟩
  · intro fs h
    exact pe_strat1 t _ (by simp only [strat1Res]; rw [h])
  · intro h1 fs h2
    exact pe_strat2 t _ h1 h2
  · intro h1 h2 fs h3
    exact pe_strat3 t _ h1 h2 h3
  · intro h1 h2 h3 fs h4 hne
    rw [pe_strat4 t h1 h2 h3, parse_line_by_line_eq_strat4, h4]
    cases fs with
    | nil => exact absurd rfl hne
    | cons a as => rfl

/-- Witness for C8_object_wrapping: its strategy-4 clause fires on the
counterexample input and returns the bare object. -/
theorem C8_object_wrapping_witness :
    strat1Res "\x7b\n# x\n\"a\": 1\x7d" = none ∧
    strat2Parse "\x7b\n# x\n\"a\": 1\x7d" = none ∧
    strat3Parse "\x7b\n# x\n\"a\": 1\x7d" = none ∧
    strat4Parse "\x7b\n# x\n\"a\": 1\x7d" = some (.obj [("a", .num 1)]) ∧
    parse_json_array_response_enhanced "\x7b\n# x\n\"a\": 1\x7d" =
      .obj [("a", .num 1)] :=
  ⟨rfl, rfl, rfl, rfl,
    (C8_object_wrapping "\x7b\n# x\n\"a\": 1\x7d").2.2.2 rfl rfl rfl
      [("a", .num 1)] rfl (List.cons_ne_nil _ _)⟩

/-- C8 counterexample: on the input `"{\n# x\n\"a\": 1}"` (a brace-wrapped
object with an embedded `#` comment line) only strategy 4 succeeds and the
entry point returns a bare object, not a one-element list of objects. -/
theorem C8_counterexample :
    parse_json_array_response_enhanced "\x7b\n# x\n\"a\": 1\x7d" =
      .obj [("a", .num 1)] ∧
    Json.isArr
      (parse_json_array_response_enhanced "\x7b\n# x\n\"a\": 1\x7d") = false :=
  ⟨rfl, rfl⟩

theorem generate_realistic_value_env_free (fi : FieldInfo) (fn : String)
    (i : Nat) (e1 e2 : Env) (h : envFree fi fn = true) :
    generate_realistic_value e1 fi fn i = generate_realistic_value e2 fi fn i := by
  simp only [generate_realistic_value, envFree] at h ⊢
  split_ifs at h ⊢ <;> rfl

/-- C2 (confirmed): for every schema and count the fallback generator
returns exactly `row_count` records, and every record's key list is
exactly the schema's key list (hence every schema key is present in every
record). -/
theorem C2_fallback_count_and_keys (envf : Nat → String → Env)
    (schema : Schema) (n : Nat) :
    (generate_intelligent_fallback_data envf schema n).length = n ∧
    (generate_intelligent_fallback_data envf schema n).all
      (fun r => r.map Prod.fst == schema.map Prod.fst) = true := by
  constructor
  · simp [generate_intelligent_fallback_data]
  · rw [List.all_eq_true]
    intro r hr
    simp only [generate_intelligent_fallback_data, List.mem_map,
      List.mem_range] at hr
    obtain ⟨i, _, rfl⟩ := hr
    simp [List.map_map, Function.comp]

/-- C3 (corrected): value synthesis is deterministic (independent of the
fresh-uuid / current-time sources) exactly when no field reaches the
`uuid` or `date`/`datetime` synthesis branch; under that condition the
whole fallback generator is reproducible. -/
theorem C3_deterministic_when_env_free :
    (∀ (fi : FieldInfo) (fn : String) (i : Nat) (e1 e2 : Env),
      envFree fi fn = true →
      generate_realistic_value e1 fi fn i = generate_realistic_value e2 fi fn i) ∧
    (∀ (schema : Schema) (n : Nat) (envf1 envf2 : Nat → String → Env),
      (schema.all fun kv => envFree kv.2 kv.1) = true →
      generate_intelligent_fallback_data envf1 schema n =
        generate_intelligent_fallback_data envf2 schema n) := by
  refine ⟨fun fi fn i e1 e2 h => generate_realistic_value_env_free fi fn i e1 e2 h, ?_⟩
  intro schema n envf1 envf2 h
  rw [List.all_eq_true] at h
  simp only [generate_intelligent_fallback_data]
  refine List.map_congr_left ?_
  intro i _
  refine List.map_congr_left ?_
  intro kv hkv
  rw [generate_realistic_value_env_free kv.2 kv.1 i (envf1 i kv.1) (envf2 i kv.1)
    (h kv hkv)]

/-- Witness for C3_deterministic_when_env_free: a `number` field with
constraints is generated identically under two different environments. -/
theorem C3_deterministic_when_env_free_witness :
    envFree ⟨some "number", [], ⟨some 18, some 90⟩⟩ "age_limit" = true ∧
    generate_realistic_value ⟨"u1", fun _ => "t1"⟩
        ⟨some "number", [], ⟨some 18, some 90⟩⟩ "age_limit" 3 =
      generate_realistic_value ⟨"u2", fun _ => "t2"⟩
        ⟨some "number", [], ⟨some 18, some 90⟩⟩ "age_limit" 3 :=
  ⟨rfl, (C3_deterministic_when_env_free).1 ⟨some "number", [], ⟨some 18, some 90⟩⟩
    "age_limit" 3 ⟨"u1", fun _ => "t1"⟩ ⟨"u2", fun _ => "t2"⟩ rfl⟩

/-- C3 counterexample: a `uuid`-typed field without examples is generated
from `str(uuid.uuid4())`, so two calls with identical field spec, field
name and index can return different values; the fallback generator
inherits the difference. -/
theorem C3_counterexample :
    generate_realistic_value ⟨"u1", fun _ => ""⟩ ⟨some "uuid", [], {}⟩ "field" 0 ≠
      generate_realistic_value ⟨"u2", fun _ => ""⟩ ⟨some "uuid", [], {}⟩ "field" 0 ∧
    generate_intelligent_fallback_data (fun _ _ => ⟨"u1", fun _ => ""⟩)
        [("id", ⟨some "uuid", [], {}⟩)] 1 ≠
      generate_intelligent_fallback_data (fun _ _ => ⟨"u2", fun _ => ""⟩)
        [("id", ⟨some "uuid", [], {}⟩)] 1 := by
  constructor
  · intro h
    have h' : Json.str "u1" = Json.str "u2" := h
    injection h' with hs
    exact absurd hs (by decide)
  · intro h
    have h' : [[("id", Json.str "u1")]] = [[("id", Json.str "u2")]] := h
    simp at h'

/-- C6 (confirmed): when the model invocation / parsing step raises, the
Privacy and Bias agents catch the exception and return (normally - both
embeddings are total functions, so nothing propagates and the orchestrator
runs the next stage) an output carrying the canonical default score
(85 resp. 88) together with an `error` annotation. -/
theorem C6_agent_error_recovery (e : String) (ctx : Obj) :
    assess_privacy true (.error e) ctx =
      [("privacy_score", .num 85), ("risks", .arr []), ("error", .str e)] ∧
    getO (assess_privacy true (.error e) ctx) "privacy_score" = some (.num 85) ∧
    getO (assess_privacy true (.error e) ctx) "error" = some (.str e) ∧
    detect_bias true (.error e) ctx =
      [("bias_score", .num 88), ("bias_types", .arr []), ("error", .str e)] ∧
    getO (detect_bias true (.error e) ctx) "bias_score" = some (.num 88) ∧
    getO (detect_bias true (.error e) ctx) "error" = some (.str e) :=
  ⟨rfl, rfl, rfl, rfl, rfl, rfl⟩

/-- C4 (confirmed): for every run, the emitted progress values are
non-decreasing up to the last element; the last element is 100 exactly
when the run returns a result and -1 exactly when it re-raises; and no
trace contains both 100 and -1. -/
theorem C4_progress_protocol (o : StageOracle) :
    nonDecreasingInt
      (((orchestrate o).events.map (fun ev => ev.progress)).dropLast) = true ∧
    (∀ r, (orchestrate o).outcome = .ok r →
      ((orchestrate o).events.map (fun ev => ev.progress)).getLast? = some 100) ∧
    (∀ e, (orchestrate o).outcome = .error e →
      ((orchestrate o).events.map (fun ev => ev.progress)).getLast? = some (-1)) ∧
    ¬((100 : Int) ∈ (orchestrate o).events.map (fun ev => ev.progress) ∧
      (-1 : Int) ∈ (orchestrate o).events.map (fun ev => ev.progress)) := by
  obtain ⟨dS, pS, bS, rS, qS, gS, vS⟩ := o
  simp only [orchestrate]
  rcases dS with e | d <;> dsimp only
  · refine ⟨?_, ?_, ?_, ?_⟩
    · decide
    · intro r h; cases h
    · intro e' _; decide
    · decide
  rcases pS d with e | p <;> dsimp only
  · refine ⟨?_, ?_, ?_, ?_⟩
    · decide
    · intro r h; cases h
    · intro e' _; decide
    · decide
  rcases bS d with e | b <;> dsimp only
  · refine ⟨?_, ?_, ?_, ?_⟩
    · decide
    · intro r h; cases h
    · intro e' _; decide
    · decide
  rcases rS d with e | rel <;> dsimp only
  · refine ⟨?_, ?_, ?_, ?_⟩
    · decide
    · intro r h; cases h
    · intro e' _; decide
    · decide
  rcases qS d p b rel with e | q <;> dsimp only
  · refine ⟨?_, ?_, ?_, ?_⟩
    · decide
    · intro r h; cases h
    · intro e' _; decide
    · decide
  rcases gS d p b rel q with e | g <;> dsimp only
  · refine ⟨?_, ?_, ?_, ?_⟩
    · decide
    · intro r h; cases h
    · intro e' _; decide
    · decide
  rcases vS g with e | v <;> dsimp only
  · refine ⟨?_, ?_, ?_, ?_⟩
    · decide
    · intro r h; cases h
    · intro e' _; decide
    · decide
  refine ⟨?_, ?_, ?_, ?_⟩
  · decide
  · intro r _; decide
  · intro e' h; cases h
  · decide

/-- Witness for C4_progress_protocol: the all-success run returns a result
and its final progress value is 100. -/
theorem C4_progress_protocol_witness :
    ((orchestrate allOkOracle).events.map (fun ev => ev.progress)).getLast? =
      some 100 :=
  (C4_progress_protocol allOkOracle).2.1 ⟨[], .num 92, .num 95, .num 88⟩ rfl

/-- C5 (confirmed): whatever each stage returns or raises, the invoked
stage operations form a prefix of the fixed order (domain analysis,
privacy assessment, bias detection, relationship mapping, quality
planning, data generation, quality validation, final assembly), and a run
that returns a result invoked all of them in exactly that order. -/
theorem C5_fixed_stage_order (o : StageOracle) :
    isPrefixOfList (orchestrate o).calls fullStageOrder = true ∧
    (∀ r, (orchestrate o).outcome = .ok r →
      (orchestrate o).calls = fullStageOrder) := by
  obtain ⟨dS, pS, bS, rS, qS, gS, vS⟩ := o
  simp only [orchestrate]
  rcases dS with e | d <;> dsimp only
  · refine ⟨?_, ?_⟩
    · decide
    · intro r h; cases h
  rcases pS d with e | p <;> dsimp only
  · refine ⟨?_, ?_⟩
    · decide
    · intro r h; cases h
  rcases bS d with e | b <;> dsimp only
  · refine ⟨?_, ?_⟩
    · decide
    · intro r h; cases h
  rcases rS d with e | rel <;> dsimp only
  · refine ⟨?_, ?_⟩
    · decide
    · intro r h; cases h
  rcases qS d p b rel with e | q <;> dsimp only
  · refine ⟨?_, ?_⟩
    · decide
    · intro r h; cases h
  rcases gS d p b rel q with e | g <;> dsimp only
  · refine ⟨?_, ?_⟩
    · decide
    · intro r h; cases h
  rcases vS g with e | v <;> dsimp only
  · refine ⟨?_, ?_⟩
    · decide
    · intro r h; cases h
  refine ⟨?_, ?_⟩
  · decide
  · intro r _; decide

/-- Witness for C5_fixed_stage_order: the all-success run invokes exactly
the full stage order. -/
theorem C5_fixed_stage_order_witness :
    (orchestrate allOkOracle).calls = fullStageOrder :=
  (C5_fixed_stage_order allOkOracle).2 ⟨[], .num 92, .num 95, .num 88⟩ rfl

theorem foldl_disconnect_eq_filter (ds : List String) :
    ∀ (l : List String), l.Nodup →
      ds.foldl disconnect l = l.filter (fun x => decide (x ∉ ds)) := by
  induction ds with
  | nil => intro l _; simp
  | cons d ds ih =>
    intro l hl
    rw [List.foldl_cons]
    have hd : disconnect l d = l.filter (fun x => x != d) := by
      unfold disconnect
      split_ifs with hm
      · exact hl.erase_eq_filter d
      · symm
        rw [List.filter_eq_self]
        intro a ha
        simp only [bne_iff_ne, ne_eq, decide_eq_true_eq]
        intro had
        exact hm (had ▸ ha)
    rw [hd, ih _ (hl.filter _), List.filter_filter]
    apply List.filter_congr
    intro x _
    by_cases hxd : x = d <;> by_cases hxds : x ∈ ds <;> simp [hxd, hxds]

/-- C9 (confirmed): broadcast attempts delivery to every currently
registered subscriber in registry order; the subscribers whose delivery
raised are exactly the ones removed from the registry afterwards; every
other subscriber keeps its registration and its delivery succeeded; and
the embedded call is a total function, modelling that broadcast itself
never raises. -/
theorem C9_broadcast_best_effort (reg : List String) (sendOk : String → Bool)
    (h : reg.Nodup) :
    (broadcast reg sendOk).attempts = reg.map (fun c => (c, sendOk c)) ∧
    (broadcast reg sendOk).attempts.map Prod.fst = reg ∧
    (broadcast reg sendOk).registry = reg.filter (fun c => sendOk c) := by
  refine ⟨?_, ?_, ?_⟩
  · unfold broadcast
    cases reg with
    | nil => rfl
    | cons a as => rfl
  · unfold broadcast
    cases reg with
    | nil => rfl
    | cons a as => simp [List.map_map, Function.comp_def]
  · unfold broadcast
    cases reg with
    | nil => rfl
    | cons a as =>
      simp only [List.isEmpty_cons, Bool.false_eq_true, if_false]
      rw [foldl_disconnect_eq_filter _ _ h]
      apply List.filter_congr
      intro x hx
      by_cases hs : sendOk x <;>
        simp [hs, List.mem_filter, hx]

/-- Witness for C9_broadcast_best_effort: three subscribers, delivery to
"b" fails; all three are attempted, "b" alone is removed. -/
theorem C9_broadcast_best_effort_witness :
    (broadcast ["a", "b", "c"] (fun c => c != "b")).attempts =
      [("a", true), ("b", false), ("c", true)] ∧
    (broadcast ["a", "b", "c"] (fun c => c != "b")).registry = ["a", "c"] :=
  ⟨((C9_broadcast_best_effort ["a", "b", "c"] (fun c => c != "b")
      (by decide)).1).trans (by decide),
   ((C9_broadcast_best_effort ["a", "b", "c"] (fun c => c != "b")
      (by decide)).2.2).trans (by decide)⟩

theorem fallback_data_length (envf : Nat → String → Env) (schema : Schema)
    (n : Nat) : (generate_intelligent_fallback_data envf schema n).length = n := by
  simp [generate_intelligent_fallback_data]

/-- C10 (confirmed): the generation entry point never returns more than
`rowCount` (default 100) records; the unavailable and exception paths
return exactly `rowCount` fallback records; and a successfully parsed
nonempty list is truncated to its first `rowCount` elements (so a shorter
list is returned as-is). -/
theorem C10_row_cap (geminiInit : Bool) (resp : Except String String)
    (schema : Schema) (config : GenConfig) (envf : Nat → String → Env) :
    jsonRecCount (generate_synthetic_data geminiInit resp schema config envf) ≤
      config.rowCount?.getD 100 ∧
    (geminiInit = false →
      generate_synthetic_data geminiInit resp schema config envf =
        .arr ((generate_intelligent_fallback_data envf schema
          (config.rowCount?.getD 100)).map Json.obj) ∧
      jsonRecCount (generate_synthetic_data geminiInit resp schema config envf) =
        config.rowCount?.getD 100) ∧
    (∀ e, geminiInit = true → resp = .error e →
      generate_synthetic_data geminiInit resp schema config envf =
        .arr ((generate_intelligent_fallback_data envf schema
          (config.rowCount?.getD 100)).map Json.obj) ∧
      jsonRecCount (generate_synthetic_data geminiInit resp schema config envf) =
        config.rowCount?.getD 100) ∧
    (∀ text xs, geminiInit = true → resp = .ok text →
      parse_json_array_response text = .arr xs → xs ≠ [] →
      generate_synthetic_data geminiInit resp schema config envf =
        .arr (xs.take (config.rowCount?.getD 100))) := by
  cases geminiInit with
  | false =>
    refine ⟨?_, ?_, ?_, ?_⟩
    · simp [generate_synthetic_data, jsonRecCount, fallback_data_length]
    · intro _
      exact ⟨rfl, by simp [generate_synthetic_data, jsonRecCount, fallback_data_length]⟩
    · intro e h; cases h
    · intro text xs h; cases h
  | true =>
    cases resp with
    | error e =>
      refine ⟨?_, ?_, ?_, ?_⟩
      · simp [generate_synthetic_data, jsonRecCount, fallback_data_length]
      · intro h; cases h
      · intro e' _ _
        exact ⟨rfl, by simp [generate_synthetic_data, jsonRecCount, fallback_data_length]⟩
      · intro text xs _ h; cases h
    | ok text =>
      refine ⟨?_, ?_, ?_, ?_⟩
      · cases hp : parse_json_array_response text with
        | arr xs =>
          by_cases hxs : xs.isEmpty <;>
            simp [generate_synthetic_data, hp, hxs, jsonRecCount,
              fallback_data_length, List.length_take]
        | str s =>
          by_cases hs : s = "" <;>
            simp [generate_synthetic_data, hp, hs, jsonRecCount,
              fallback_data_length]
        | null =>
          simp [generate_synthetic_data, hp, jsonRecCount, fallback_data_length]
        | bool b =>
          simp [generate_synthetic_data, hp, jsonRecCount, fallback_data_length]
        | num n =>
          simp [generate_synthetic_data, hp, jsonRecCount, fallback_data_length]
        | flt m f e10 =>
          simp [generate_synthetic_data, hp, jsonRecCount, fallback_data_length]
        | obj fs =>
          simp [generate_synthetic_data, hp, jsonRecCount, fallback_data_length]
      · intro h; cases h
      · intro e' _ h; cases h
      · intro text' xs _ hok hp hne
        cases hok
        simp only [generate_synthetic_data, Bool.not_true, Bool.false_eq_true,
          if_false, hp]
        rw [if_neg (by simpa using hne)]

/-- Witness for C10_row_cap: rowCount 1 with a 3-element parsed response is
truncated to the first element. -/
theorem C10_row_cap_witness :
    parse_json_array_response "[1, 2, 3]" = .arr [.num 1, .num 2, .num 3] ∧
    generate_synthetic_data true (.ok "[1, 2, 3]") [] ⟨some 1, none⟩
        (fun _ _ => ⟨"", fun _ => ""⟩) = .arr [.num 1] :=
  ⟨rfl, (C10_row_cap true (.ok "[1, 2, 3]") [] ⟨some 1, none⟩
      (fun _ _ => ⟨"", fun _ => ""⟩)).2.2.2 "[1, 2, 3]"
      [.num 1, .num 2, .num 3] rfl rfl rfl (List.cons_ne_nil _ _)⟩
